import Mathlib

set_option maxHeartbeats 1000000

/-!
Verification development for the scan configuration resolution engine of
the arp-scan tool (src/args.rs). The definitions embed the Rust source:
the clap argument grammar declared by build_args, the per-field resolvers
of ScanOptions::new and ScanOptions::compute_networks, and models of the
external collaborators they call (the ipnetwork CIDR parser, the std and
pnet address parsers, the file system). Process exit with a diagnostic is
embedded as the error branch of Except; a successful run returns the
assembled ScanOptions value.
-/

/-- Value of a list of decimal digit characters. -/
def digitsToNat (cs : List Char) : Nat :=
  cs.foldl (fun a c => a * 10 + (c.toNat - 48)) 0

/-- Model of the Rust str parse for unsigned integer types: an optional
leading plus sign followed by at least one decimal digit. -/
def rustParseNat (s : String) : Option Nat :=
  let cs := match s.data with
    | '+' :: rest => rest
    | other => other
  if cs ≠ [] ∧ cs.all Char.isDigit then some (digitsToNat cs) else none

/-- Rust parse into a bounded unsigned integer type: overflow fails. -/
def rustParseBounded (bound : Nat) (s : String) : Option Nat :=
  (rustParseNat s).bind (fun n => if n < bound then some n else none)

/-- Rust u8 text parse. -/
def rustParseU8 (s : String) : Option Nat := rustParseBounded 256 s

/-- Rust u16 text parse. -/
def rustParseU16 (s : String) : Option Nat := rustParseBounded 65536 s

/-- Rust usize text parse (64 bit platform). -/
def rustParseUsize (s : String) : Option Nat := rustParseBounded (2 ^ 64) s

/-- Split a character list at every occurrence of the separator, keeping
empty pieces: the semantics of the Rust str split iterator. -/
def splitOnChar (sep : Char) : List Char → List (List Char)
  | [] => [[]]
  | c :: rest =>
    match splitOnChar sep rest with
    | [] => [[c]]
    | h :: t => if c = sep then [] :: h :: t else (c :: h) :: t

/-- Rust str split on a single separator character. -/
def rustSplit (sep : Char) (s : String) : List String :=
  (splitOnChar sep s.data).map (fun cs => String.mk cs)

/-- Model of the Rust str lines iterator: pieces between newline
characters, the final line ending optional, and a carriage return at the
end of a line removed. The empty string has no lines; an empty line in
the middle of the text is kept as the empty string. -/
def rustLines (s : String) : List String :=
  if s.data = [] then []
  else
    let parts := splitOnChar '\n' s.data
    let parts := match parts.getLast? with
      | some [] => parts.dropLast
      | _ => parts
    parts.map (fun cs =>
      String.mk (match cs.getLast? with
        | some '\r' => cs.dropLast
        | _ => cs))

/-- IPv4 address, a model of the std net type used by the source. -/
structure Ipv4Addr where
  o1 : Nat
  o2 : Nat
  o3 : Nat
  o4 : Nat
deriving DecidableEq

/-- One decimal octet of an IPv4 address: digits only, at most 255. -/
def parseOctet (s : String) : Option Nat :=
  if s.data ≠ [] ∧ s.data.all Char.isDigit ∧ digitsToNat s.data ≤ 255
  then some (digitsToNat s.data) else none

/-- Model of the std IPv4 text grammar: exactly four dot separated
decimal octets. The empty string fails. -/
def Ipv4Addr.from_str (s : String) : Option Ipv4Addr :=
  match rustSplit '.' s with
  | [a, b, c, d] =>
    match parseOctet a, parseOctet b, parseOctet c, parseOctet d with
    | some x1, some x2, some x3, some x4 => some ⟨x1, x2, x3, x4⟩
    | _, _, _, _ => none
  | _ => none

/-- MAC address, a model of the pnet datalink type used by the source. -/
structure MacAddr where
  b1 : Nat
  b2 : Nat
  b3 : Nat
  b4 : Nat
  b5 : Nat
  b6 : Nat
deriving DecidableEq

/-- Value of one hexadecimal digit character. -/
def hexVal (c : Char) : Option Nat :=
  if c.isDigit then some (c.toNat - 48)
  else if 'a' ≤ c ∧ c ≤ 'f' then some (c.toNat - 87)
  else if 'A' ≤ c ∧ c ≤ 'F' then some (c.toNat - 55)
  else none

/-- One hexadecimal byte of one or two digits. -/
def parseHexByte (s : String) : Option Nat :=
  match s.data with
  | [c] => hexVal c
  | [c1, c2] =>
    match hexVal c1, hexVal c2 with
    | some h, some l => some (h * 16 + l)
    | _, _ => none
  | _ => none

/-- Model of the pnet MacAddr text grammar: six colon separated
hexadecimal bytes. -/
def MacAddr.from_str (s : String) : Option MacAddr :=
  match rustSplit ':' s with
  | [a, b, c, d, e, f] =>
    match parseHexByte a, parseHexByte b, parseHexByte c,
          parseHexByte d, parseHexByte e, parseHexByte f with
    | some x1, some x2, some x3, some x4, some x5, some x6 =>
      some ⟨x1, x2, x3, x4, x5, x6⟩
    | _, _, _, _, _, _ => none
  | _ => none

/-- CIDR network range, a model of the external ipnetwork crate type,
restricted to IPv4 networks. -/
structure IpNetwork where
  addr : Ipv4Addr
  prefix_len : Nat
deriving DecidableEq

/-- Model of the ipnetwork crate text grammar: an IPv4 address with an
optional prefix length of at most 32; a bare address takes the full
prefix. The empty string and every other malformed text fail. -/
def IpNetwork.from_str (s : String) : Except String IpNetwork :=
  match rustSplit '/' s with
  | [ip] =>
    match Ipv4Addr.from_str ip with
    | some a => Except.ok ⟨a, 32⟩
    | none => Except.error "invalid address"
  | [ip, pl] =>
    match Ipv4Addr.from_str ip, rustParseU8 pl with
    | some a, some p =>
      if p ≤ 32 then Except.ok ⟨a, p⟩ else Except.error "invalid prefix length"
    | _, _ => Except.error "invalid address"
  | _ => Except.error "invalid cidr format"

/-- Modelled from the spec: the duration resolver parse_to_milliseconds
lives in the time module of this repository, which is not under src.
Per the spec it parses a magnitude plus unit duration expression into
milliseconds and malformed expressions fail with InvalidDuration. -/
def parse_to_milliseconds (s : String) : Except String Nat :=
  let digits := s.data.takeWhile Char.isDigit
  let unit := s.data.dropWhile Char.isDigit
  if digits = [] then Except.error "invalid duration"
  else
    match String.mk unit with
    | "ms" => Except.ok (digitsToNat digits)
    | "s" => Except.ok (digitsToNat digits * 1000)
    | "m" => Except.ok (digitsToNat digits * 60000)
    | "h" => Except.ok (digitsToNat digits * 3600000)
    | _ => Except.error "invalid duration"

/-- Model of the clap ArgMatches map: the parsed occurrences of valued
arguments keyed by the declared argument name, plus the boolean flags
that were given. -/
structure ArgMatches where
  values : List (String × String)
  flags : List String
deriving DecidableEq

/-- Clap value_of: the value stored under a declared argument name, or
none when the name has no stored value. -/
def ArgMatches.value_of (m : ArgMatches) (nm : String) : Option String :=
  (m.values.find? (fun p => p.1 == nm)).map (fun p => p.2)

/-- Clap is_present: a flag was given or a value is stored. -/
def ArgMatches.is_present (m : ArgMatches) (nm : String) : Bool :=
  m.flags.contains nm || (m.value_of nm).isSome

/-- The valued arguments declared by build_args, as pairs of the clap
argument name and the long flag. The five custom ARP header arguments
are declared under underscore names while their long flags are
hyphenated, exactly as in the source. -/
def cliValuedArgs : List (String × String) := [
  ("profile", "profile"),
  ("interface", "interface"),
  ("network", "network"),
  ("file", "file"),
  ("timeout", "timeout"),
  ("source_ip", "source-ip"),
  ("destination_mac", "dest-mac"),
  ("source_mac", "source-mac"),
  ("vlan", "vlan"),
  ("retry_count", "retry"),
  ("interval", "interval"),
  ("oui-file", "oui-file"),
  ("output", "output"),
  ("hw_type", "hw-type"),
  ("hw_addr", "hw-addr"),
  ("proto_type", "proto-type"),
  ("proto_addr", "proto-addr"),
  ("arp_operation", "arp-op")]

/-- The boolean flags declared by build_args. -/
def cliFlagArgs : List (String × String) := [
  ("numeric", "numeric"),
  ("random", "random"),
  ("list", "list")]

/-- The static conflicts declared by build_args: the file argument
conflicts with the network argument. -/
def cliConflicts : List (String × String) := [("file", "network")]

/-- A command line invocation: long flags given with a value, and long
boolean flags given without one. -/
structure CliInput where
  valued : List (String × String)
  given : List String
deriving DecidableEq

/-- The declared argument name behind a valued long flag. -/
def longToName (long : String) : Option String :=
  (cliValuedArgs.find? (fun p => p.2 == long)).map (fun p => p.1)

/-- The declared argument name behind a boolean long flag. -/
def flagLongToName (long : String) : Option String :=
  (cliFlagArgs.find? (fun p => p.2 == long)).map (fun p => p.1)

/-- Translate the valued occurrences of an invocation to declared
argument names; an unknown flag is rejected. -/
def resolveValued : List (String × String) → Except String (List (String × String))
  | [] => Except.ok []
  | (long, v) :: rest =>
    match longToName long with
    | some nm => (resolveValued rest).map (fun r => (nm, v) :: r)
    | none => Except.error ("unknown argument " ++ long)

/-- Translate the boolean flags of an invocation to declared argument
names; an unknown flag is rejected. -/
def resolveGiven : List String → Except String (List String)
  | [] => Except.ok []
  | long :: rest =>
    match flagLongToName long with
    | some nm => (resolveGiven rest).map (fun r => nm :: r)
    | none => Except.error ("unknown argument " ++ long)

/-- Model of clap argument matching for the grammar declared by
build_args: translate the long flags to argument names and enforce the
declared static conflicts before any field resolution runs. -/
def get_matches (inp : CliInput) : Except String ArgMatches := do
  let vals ← resolveValued inp.valued
  let fl ← resolveGiven inp.given
  let m : ArgMatches := ⟨vals, fl⟩
  if cliConflicts.any (fun p => (m.value_of p.1).isSome && (m.value_of p.2).isSome)
  then Except.error "the argument cannot be used with one or more of the other specified arguments"
  else Except.ok m

def TIMEOUT_MS_FAST : Nat := 800

def TIMEOUT_MS_DEFAULT : Nat := 2000

def HOST_RETRY_DEFAULT : Nat := 1

def REQUEST_MS_INTERVAL : Nat := 10

inductive OutputFormat
  | Plain
  | Json
  | Yaml
deriving DecidableEq

inductive ProfileType
  | Default
  | Fast
  | Stealth
  | Chaos
deriving DecidableEq

/-- The resolved scan configuration, embedding the ScanOptions struct
of the source with machine integers as Nat. -/
structure ScanOptions where
  profile : ProfileType
  interface_name : Option String
  network_range : Option (List IpNetwork)
  timeout_ms : Nat
  resolve_hostname : Bool
  source_ipv4 : Option Ipv4Addr
  source_mac : Option MacAddr
  destination_mac : Option MacAddr
  vlan_id : Option Nat
  retry_count : Nat
  interval_ms : Nat
  randomize_targets : Bool
  output : OutputFormat
  oui_file : String
  hw_type : Option Nat
  hw_addr : Option Nat
  proto_type : Option Nat
  proto_addr : Option Nat
  arp_operation : Option Nat
deriving DecidableEq

/-- The file system, modelled as the association of readable paths with
their text content; reading any other path fails. -/
def read_to_string (fsys : List (String × String)) (path : String) : Option String :=
  (fsys.find? (fun p => p.1 == path)).map (fun p => p.2)

/-- Parse every raw range in order through the ipnetwork parser; the
first failure aborts with the diagnostic of the source (the map with
process exit inside compute_networks). -/
def parseRanges : List String → Except String (List IpNetwork)
  | [] => Except.ok []
  | raw :: rest =>
    match IpNetwork.from_str raw with
    | Except.ok parsed_network => (parseRanges rest).map (fun l => parsed_network :: l)
    | Except.error err =>
      Except.error ("Expected valid IPv4 network range (" ++ err ++ ")")

/-- Embedding of ScanOptions::compute_networks: gather raw ranges from
the file (read as text, split into lines) or from the inline text
(split on comma), then parse each; a missing file or any malformed
entry aborts, and with neither source present the result is absent. -/
def compute_networks (fsys : List (String × String)) (m : ArgMatches) :
    Except String (Option (List IpNetwork)) :=
  let ranges : Except String (Option (List String)) :=
    match m.value_of "file", m.value_of "network" with
    | some file_path, none =>
      match read_to_string fsys file_path with
      | some content => Except.ok (some (rustLines content))
      | none => Except.error ("Could not open file " ++ file_path)
    | none, some raw_ranges => Except.ok (some (rustSplit ',' raw_ranges))
    | _, _ => Except.ok none
  match ranges with
  | Except.error e => Except.error e
  | Except.ok none => Except.ok none
  | Except.ok (some range_vec) => (parseRanges range_vec).map (fun l => some l)

/-- Embedding of the profile resolver of ScanOptions::new. -/
def resolveProfile (m : ArgMatches) : Except String ProfileType :=
  match m.value_of "profile" with
  | some profile_request =>
    if profile_request = "default" ∨ profile_request = "d" then
      Except.ok ProfileType.Default
    else if profile_request = "fast" ∨ profile_request = "f" then
      Except.ok ProfileType.Fast
    else if profile_request = "stealth" ∨ profile_request = "s" then
      Except.ok ProfileType.Stealth
    else if profile_request = "chaos" ∨ profile_request = "c" then
      Except.ok ProfileType.Chaos
    else
      Except.error "Expected correct profile name (default/fast/stealth/chaos)"
  | none => Except.ok ProfileType.Default

/-- Embedding of the timeout resolver of ScanOptions::new. -/
def resolveTimeout (m : ArgMatches) (profile : ProfileType) : Except String Nat :=
  match m.value_of "timeout" with
  | some timeout_text =>
    match parse_to_milliseconds timeout_text with
    | Except.ok ms => Except.ok ms
    | Except.error err => Except.error ("Expected correct timeout, " ++ err)
  | none =>
    match profile with
    | ProfileType.Fast => Except.ok TIMEOUT_MS_FAST
    | _ => Except.ok TIMEOUT_MS_DEFAULT

/-- Embedding of the source IPv4 resolver of ScanOptions::new. -/
def resolveSourceIpv4 (m : ArgMatches) : Except String (Option Ipv4Addr) :=
  match m.value_of "source_ip" with
  | some source_ip =>
    match Ipv4Addr.from_str source_ip with
    | some parsed_ipv4 => Except.ok (some parsed_ipv4)
    | none => Except.error "Expected valid IPv4 as source IP"
  | none => Except.ok none

/-- Embedding of the destination MAC resolver of ScanOptions::new. -/
def resolveDestinationMac (m : ArgMatches) : Except String (Option MacAddr) :=
  match m.value_of "destination_mac" with
  | some mac_address =>
    match MacAddr.from_str mac_address with
    | some parsed_mac => Except.ok (some parsed_mac)
    | none => Except.error "Expected valid MAC address as destination"
  | none => Except.ok none

/-- Embedding of the source MAC resolver of ScanOptions::new. -/
def resolveSourceMac (m : ArgMatches) : Except String (Option MacAddr) :=
  match m.value_of "source_mac" with
  | some mac_address =>
    match MacAddr.from_str mac_address with
    | some parsed_mac => Except.ok (some parsed_mac)
    | none => Except.error "Expected valid MAC address as source"
  | none => Except.ok none

/-- Embedding of the VLAN id resolver of ScanOptions::new. -/
def resolveVlan (m : ArgMatches) : Except String (Option Nat) :=
  match m.value_of "vlan" with
  | some vlan =>
    match rustParseU16 vlan with
    | some vlan_number => Except.ok (some vlan_number)
    | none => Except.error "Expected valid VLAN identifier"
  | none => Except.ok none

/-- Embedding of the retry count resolver of ScanOptions::new. -/
def resolveRetry (m : ArgMatches) (profile : ProfileType) : Except String Nat :=
  match m.value_of "retry_count" with
  | some retry_text =>
    match rustParseUsize retry_text with
    | some retry_number => Except.ok retry_number
    | none => Except.error "Expected positive number for host retry count"
  | none =>
    match profile with
    | ProfileType.Chaos => Except.ok (HOST_RETRY_DEFAULT * 2)
    | _ => Except.ok HOST_RETRY_DEFAULT

/-- Embedding of the interval resolver of ScanOptions::new. -/
def resolveInterval (m : ArgMatches) (profile : ProfileType) : Except String Nat :=
  match m.value_of "interval" with
  | some interval_text =>
    match parse_to_milliseconds interval_text with
    | Except.ok ms => Except.ok ms
    | Except.error err => Except.error ("Expected correct interval, " ++ err)
  | none =>
    match profile with
    | ProfileType.Stealth => Except.ok (REQUEST_MS_INTERVAL * 2)
    | ProfileType.Fast => Except.ok 0
    | _ => Except.ok REQUEST_MS_INTERVAL

/-- Embedding of the output format resolver of ScanOptions::new. -/
def resolveOutput (m : ArgMatches) : Except String OutputFormat :=
  match m.value_of "output" with
  | some output_request =>
    if output_request = "json" then Except.ok OutputFormat.Json
    else if output_request = "yaml" then Except.ok OutputFormat.Yaml
    else if output_request = "plain" ∨ output_request = "text" then
      Except.ok OutputFormat.Plain
    else Except.error "Expected correct output format (json/yaml/plain)"
  | none => Except.ok OutputFormat.Plain

/-- Embedding of the OUI file path resolution of ScanOptions::new. -/
def resolveOuiFile (m : ArgMatches) : String :=
  match m.value_of "oui-file" with
  | some file => file
  | none => "/usr/share/arp-scan/ieee-oui.csv"

/-- Embedding of the hardware type resolver of ScanOptions::new; the
lookup key is the hyphenated text used by the source. -/
def resolveHwType (m : ArgMatches) : Except String (Option Nat) :=
  match m.value_of "hw-type" with
  | some hw_type_text =>
    match rustParseU16 hw_type_text with
    | some type_number => Except.ok (some type_number)
    | none => Except.error "Expected valid ARP hardware type number"
  | none => Except.ok none

/-- Embedding of the hardware address length resolver of
ScanOptions::new; the lookup key is the hyphenated text of the source. -/
def resolveHwAddr (m : ArgMatches) : Except String (Option Nat) :=
  match m.value_of "hw-addr" with
  | some hw_addr_text =>
    match rustParseU8 hw_addr_text with
    | some addr_length => Except.ok (some addr_length)
    | none => Except.error "Expected valid ARP hardware address length"
  | none => Except.ok none

/-- Embedding of the protocol type resolver of ScanOptions::new; the
lookup key is the hyphenated text of the source. -/
def resolveProtoType (m : ArgMatches) : Except String (Option Nat) :=
  match m.value_of "proto-type" with
  | some proto_type_text =>
    match rustParseU16 proto_type_text with
    | some type_number => Except.ok (some type_number)
    | none => Except.error "Expected valid ARP proto type number"
  | none => Except.ok none

/-- Embedding of the protocol address length resolver of
ScanOptions::new; the lookup key is the hyphenated text of the source. -/
def resolveProtoAddr (m : ArgMatches) : Except String (Option Nat) :=
  match m.value_of "proto-addr" with
  | some proto_addr_text =>
    match rustParseU8 proto_addr_text with
    | some addr_length => Except.ok (some addr_length)
    | none => Except.error "Expected valid ARP hardware address length"
  | none => Except.ok none

/-- Embedding of the ARP operation resolver of ScanOptions::new; the
lookup key is the hyphenated text of the source. -/
def resolveArpOperation (m : ArgMatches) : Except String (Option Nat) :=
  match m.value_of "arp-op" with
  | some arp_op_text =>
    match rustParseU16 arp_op_text with
    | some op_number => Except.ok (some op_number)
    | none => Except.error "Expected valid ARP operation number"
  | none => Except.ok none

/-- Embedding of ScanOptions::new: resolve the profile first, then every
field in the order of the source, then the derived booleans, and
assemble the configuration; the first failing resolver aborts the run. -/
def ScanOptions.new (fsys : List (String × String)) (m : ArgMatches) :
    Except String ScanOptions := do
  let profile ← resolveProfile m
  let interface_name := m.value_of "interface"
  let network_range ← compute_networks fsys m
  let timeout_ms ← resolveTimeout m profile
  let resolve_hostname :=
    !(m.is_present "numeric") &&
      (match profile with
        | ProfileType.Stealth => false
        | _ => true)
  let source_ipv4 ← resolveSourceIpv4 m
  let destination_mac ← resolveDestinationMac m
  let source_mac ← resolveSourceMac m
  let vlan_id ← resolveVlan m
  let retry_count ← resolveRetry m profile
  let interval_ms ← resolveInterval m profile
  let output ← resolveOutput m
  let randomize_targets :=
    m.is_present "random" ||
      (match profile with
        | ProfileType.Stealth => true
        | ProfileType.Chaos => true
        | _ => false)
  let oui_file := resolveOuiFile m
  let hw_type ← resolveHwType m
  let hw_addr ← resolveHwAddr m
  let proto_type ← resolveProtoType m
  let proto_addr ← resolveProtoAddr m
  let arp_operation ← resolveArpOperation m
  Except.ok ⟨profile, interface_name, network_range, timeout_ms,
    resolve_hostname, source_ipv4, source_mac, destination_mac, vlan_id,
    retry_count, interval_ms, randomize_targets, output, oui_file,
    hw_type, hw_addr, proto_type, proto_addr, arp_operation⟩

/-- The full resolution pipeline: clap argument matching over the
grammar of build_args, then ScanOptions::new. -/
def resolveCli (fsys : List (String × String)) (inp : CliInput) :
    Except String ScanOptions :=
  (get_matches inp).bind (fun m => ScanOptions.new fsys m)

/-- The configuration resolved from an invocation with no flags. -/
def optsDefault : ScanOptions :=
  ⟨ProfileType.Default, none, none, 2000, true, none, none, none, none,
    1, 10, false, OutputFormat.Plain, "/usr/share/arp-scan/ieee-oui.csv",
    none, none, none, none, none⟩

/-- The configuration resolved from the fast profile alone. -/
def optsFast : ScanOptions :=
  ⟨ProfileType.Fast, none, none, 800, true, none, none, none, none,
    1, 0, false, OutputFormat.Plain, "/usr/share/arp-scan/ieee-oui.csv",
    none, none, none, none, none⟩

/-- The configuration resolved from the stealth profile alone. -/
def optsStealth : ScanOptions :=
  ⟨ProfileType.Stealth, none, none, 2000, false, none, none, none, none,
    1, 20, true, OutputFormat.Plain, "/usr/share/arp-scan/ieee-oui.csv",
    none, none, none, none, none⟩

/-- The configuration resolved from the chaos profile alone. -/
def optsChaos : ScanOptions :=
  ⟨ProfileType.Chaos, none, none, 2000, true, none, none, none, none,
    2, 10, true, OutputFormat.Plain, "/usr/share/arp-scan/ieee-oui.csv",
    none, none, none, none, none⟩

/-- The configuration resolved from the numeric flag alone. -/
def optsNumeric : ScanOptions :=
  ⟨ProfileType.Default, none, none, 2000, false, none, none, none, none,
    1, 10, false, OutputFormat.Plain, "/usr/share/arp-scan/ieee-oui.csv",
    none, none, none, none, none⟩

/-- The configuration resolved from the json output token alone. -/
def optsJson : ScanOptions :=
  ⟨ProfileType.Default, none, none, 2000, true, none, none, none, none,
    1, 10, false, OutputFormat.Json, "/usr/share/arp-scan/ieee-oui.csv",
    none, none, none, none, none⟩

/-- Inversion of Except bind: a successful bind factors through a
successful first step. -/
theorem bind_ok_iff {α β : Type} {x : Except String α}
    {f : α → Except String β} {b : β} :
    (x >>= f) = Except.ok b ↔ ∃ a, x = Except.ok a ∧ f a = Except.ok b := by
  cases x <;> simp [Bind.bind, Except.bind]

/-- Inversion of ScanOptions.new: a successful resolution determines
every field of the result through its own resolver. -/
theorem new_ok_inv {fsys : List (String × String)} {m : ArgMatches}
    {opts : ScanOptions} (h : ScanOptions.new fsys m = Except.ok opts) :
    resolveProfile m = Except.ok opts.profile ∧
    opts.interface_name = m.value_of "interface" ∧
    compute_networks fsys m = Except.ok opts.network_range ∧
    resolveTimeout m opts.profile = Except.ok opts.timeout_ms ∧
    opts.resolve_hostname =
      (!(m.is_present "numeric") &&
        (match opts.profile with
          | ProfileType.Stealth => false
          | _ => true)) ∧
    resolveVlan m = Except.ok opts.vlan_id ∧
    resolveRetry m opts.profile = Except.ok opts.retry_count ∧
    resolveInterval m opts.profile = Except.ok opts.interval_ms ∧
    resolveOutput m = Except.ok opts.output ∧
    opts.randomize_targets =
      (m.is_present "random" ||
        (match opts.profile with
          | ProfileType.Stealth => true
          | ProfileType.Chaos => true
          | _ => false)) ∧
    resolveHwType m = Except.ok opts.hw_type ∧
    resolveHwAddr m = Except.ok opts.hw_addr ∧
    resolveProtoType m = Except.ok opts.proto_type ∧
    resolveProtoAddr m = Except.ok opts.proto_addr ∧
    resolveArpOperation m = Except.ok opts.arp_operation := by
  unfold ScanOptions.new at h
  simp only [bind_ok_iff] at h
  obtain ⟨p, hp, nr, hnr, t, ht, si, hsi, dm, hdm, sm, hsm, vl, hvl,
    rc, hrc, iv, hiv, op, hop, hwt, hhwt, hwa, hhwa, pt, hpt, pa, hpa,
    ao, hao, hfin⟩ := h
  rw [Except.ok.injEq] at hfin
  subst hfin
  exact ⟨hp, rfl, hnr, ht, rfl, hvl, hrc, hiv, hop, rfl, hhwt, hhwa,
    hpt, hpa, hao⟩

/-- C1: the claim states that supplying raw text for any of the hw-type,
hw-addr, proto-type, proto-addr or arp-op flags yields Some of the
parsed value, with a fatal diagnostic on malformed text. The code stores
these flags under underscore argument names but reads them back under
hyphenated names, so every lookup misses: the resolved fields stay none
even when valid values are supplied, and malformed text is accepted
silently instead of aborting. -/
theorem claim1_hw_fields_ignored :
    (∃ opts : ScanOptions,
      resolveCli []
        ⟨[("hw-type", "1"), ("hw-addr", "2"), ("proto-type", "3"),
          ("proto-addr", "4"), ("arp-op", "5")], []⟩ = Except.ok opts ∧
      opts.hw_type = none ∧ opts.hw_addr = none ∧
      opts.proto_type = none ∧ opts.proto_addr = none ∧
      opts.arp_operation = none) ∧
    (∃ opts : ScanOptions,
      resolveCli [] ⟨[("hw-type", "notanumber")], []⟩ = Except.ok opts ∧
      opts.hw_type = none) := by
  exact ⟨⟨optsDefault, rfl, rfl, rfl, rfl, rfl, rfl⟩,
    ⟨optsDefault, rfl, rfl⟩⟩

/-- C2: with no explicit timeout the resolved timeout is 800 ms under
the fast profile and 2000 ms otherwise; with no explicit interval the
resolved interval is 0 under fast, 20 under stealth and 10 otherwise;
an explicit timeout or interval that parses overrides the profile
default, whatever the profile. -/
theorem claim2_timing_defaults {fsys : List (String × String)}
    {m : ArgMatches} {opts : ScanOptions}
    (h : ScanOptions.new fsys m = Except.ok opts) :
    (m.value_of "timeout" = none →
      opts.timeout_ms =
        (match opts.profile with
          | ProfileType.Fast => 800
          | _ => 2000)) ∧
    (m.value_of "interval" = none →
      opts.interval_ms =
        (match opts.profile with
          | ProfileType.Fast => 0
          | ProfileType.Stealth => 20
          | _ => 10)) ∧
    (∀ t v, m.value_of "timeout" = some t →
      parse_to_milliseconds t = Except.ok v → opts.timeout_ms = v) ∧
    (∀ t v, m.value_of "interval" = some t →
      parse_to_milliseconds t = Except.ok v → opts.interval_ms = v) := by
  obtain ⟨-, -, -, ht, -, -, -, hiv, -, -, -, -, -, -, -⟩ := new_ok_inv h
  refine ⟨?_, ?_, ?_, ?_⟩
  · intro h0
    unfold resolveTimeout at ht
    rw [h0] at ht
    cases hq : opts.profile <;>
      simp only [hq, TIMEOUT_MS_FAST, TIMEOUT_MS_DEFAULT,
        Except.ok.injEq] at ht ⊢ <;> omega
  · intro h0
    unfold resolveInterval at hiv
    rw [h0] at hiv
    cases hq : opts.profile <;>
      simp only [hq, REQUEST_MS_INTERVAL, Except.ok.injEq] at hiv ⊢ <;>
      omega
  · intro t v h0 hparse
    unfold resolveTimeout at ht
    rw [h0] at ht
    simp only [hparse, Except.ok.injEq] at ht
    omega
  · intro t v h0 hparse
    unfold resolveInterval at hiv
    rw [h0] at hiv
    simp only [hparse, Except.ok.injEq] at hiv
    omega

/-- C2 witness: the fast profile with no timing flags resolves to an
800 ms timeout and a 0 ms interval. -/
theorem claim2_witness :
    ScanOptions.new [] ⟨[("profile", "f")], []⟩ = Except.ok optsFast ∧
    optsFast.timeout_ms = 800 ∧ optsFast.interval_ms = 0 := by
  have h : ScanOptions.new [] ⟨[("profile", "f")], []⟩ = Except.ok optsFast := rfl
  refine ⟨h, ?_, ?_⟩
  · simpa using (claim2_timing_defaults h).1 rfl
  · simpa using (claim2_timing_defaults h).2.1 rfl

/-- C3: with no explicit retry value the resolved retry count is twice
the baseline default of 1 under the chaos profile and the baseline 1
otherwise; an explicit value that parses overrides the default, and
explicit text that does not parse as an unsigned value is fatal, so no
configuration is produced from it. -/
theorem claim3_retry_defaults {fsys : List (String × String)}
    {m : ArgMatches} {opts : ScanOptions}
    (h : ScanOptions.new fsys m = Except.ok opts) :
    (m.value_of "retry_count" = none →
      opts.retry_count =
        (match opts.profile with
          | ProfileType.Chaos => HOST_RETRY_DEFAULT * 2
          | _ => HOST_RETRY_DEFAULT)) ∧
    HOST_RETRY_DEFAULT = 1 ∧
    (∀ t n, m.value_of "retry_count" = some t →
      rustParseUsize t = some n → opts.retry_count = n) ∧
    (∀ t, m.value_of "retry_count" = some t →
      rustParseUsize t = none → False) := by
  obtain ⟨-, -, -, -, -, -, hrc, -, -, -, -, -, -, -, -⟩ := new_ok_inv h
  refine ⟨?_, rfl, ?_, ?_⟩
  · intro h0
    unfold resolveRetry at hrc
    rw [h0] at hrc
    cases hq : opts.profile <;>
      simp only [hq, HOST_RETRY_DEFAULT, Except.ok.injEq] at hrc ⊢ <;>
      omega
  · intro t n h0 hparse
    unfold resolveRetry at hrc
    rw [h0] at hrc
    simp only [hparse, Except.ok.injEq] at hrc
    omega
  · intro t h0 hparse
    unfold resolveRetry at hrc
    rw [h0] at hrc
    simp only [hparse] at hrc
    exact Except.noConfusion hrc

/-- C3 witness: the chaos profile with no retry flag resolves to a
retry count of 2. -/
theorem claim3_witness :
    ScanOptions.new [] ⟨[("profile", "c")], []⟩ = Except.ok optsChaos ∧
    optsChaos.retry_count = 2 := by
  have h : ScanOptions.new [] ⟨[("profile", "c")], []⟩ = Except.ok optsChaos := rfl
  refine ⟨h, ?_⟩
  simpa [HOST_RETRY_DEFAULT] using (claim3_retry_defaults h).1 rfl

/-- C4: the resolved hostname resolution flag is false whenever the
numeric flag is present or the resolved profile is stealth, and true
otherwise, independent of every other flag. -/
theorem claim4_resolve_hostname {fsys : List (String × String)}
    {m : ArgMatches} {opts : ScanOptions}
    (h : ScanOptions.new fsys m = Except.ok opts) :
    ((m.is_present "numeric" = true ∨ opts.profile = ProfileType.Stealth) →
      opts.resolve_hostname = false) ∧
    (m.is_present "numeric" = false → opts.profile ≠ ProfileType.Stealth →
      opts.resolve_hostname = true) := by
  obtain ⟨-, -, -, -, hrh, -, -, -, -, -, -, -, -, -, -⟩ := new_ok_inv h
  constructor
  · rintro (hn | hs)
    · simp [hrh, hn]
    · simp [hrh, hs]
  · intro hn hs
    rw [hrh, hn]
    cases hq : opts.profile <;> simp_all

/-- C4 witness: the numeric flag alone forces hostname resolution off. -/
theorem claim4_witness :
    ScanOptions.new [] ⟨[], ["numeric"]⟩ = Except.ok optsNumeric ∧
    optsNumeric.resolve_hostname = false := by
  have h : ScanOptions.new [] ⟨[], ["numeric"]⟩ = Except.ok optsNumeric := rfl
  exact ⟨h, (claim4_resolve_hostname h).1 (Or.inl rfl)⟩

/-- C5: target randomization is forced on under the stealth or chaos
profile whatever the random flag, and under the default or fast profile
it equals the presence of the random flag. -/
theorem claim5_randomize_targets {fsys : List (String × String)}
    {m : ArgMatches} {opts : ScanOptions}
    (h : ScanOptions.new fsys m = Except.ok opts) :
    ((opts.profile = ProfileType.Stealth ∨ opts.profile = ProfileType.Chaos) →
      opts.randomize_targets = true) ∧
    ((opts.profile = ProfileType.Default ∨ opts.profile = ProfileType.Fast) →
      opts.randomize_targets = m.is_present "random") := by
  obtain ⟨-, -, -, -, -, -, -, -, -, hrt, -, -, -, -, -⟩ := new_ok_inv h
  constructor
  · rintro (hq | hq) <;> simp [hrt, hq]
  · rintro (hq | hq) <;> simp [hrt, hq]

/-- C5 witness: the stealth profile alone forces randomization on even
though the random flag is absent. -/
theorem claim5_witness :
    ScanOptions.new [] ⟨[("profile", "s")], []⟩ = Except.ok optsStealth ∧
    optsStealth.randomize_targets = true := by
  have h : ScanOptions.new [] ⟨[("profile", "s")], []⟩ = Except.ok optsStealth := rfl
  exact ⟨h, (claim5_randomize_targets h).1 (Or.inl rfl)⟩

/-- C6: profile resolution maps default/d, fast/f, stealth/s, chaos/c to
the matching variant, an absent token resolves to Default, and any other
token aborts, so no configuration carries it. -/
theorem claim6_profile_tokens {fsys : List (String × String)}
    {m : ArgMatches} {opts : ScanOptions}
    (h : ScanOptions.new fsys m = Except.ok opts) :
    (m.value_of "profile" = none → opts.profile = ProfileType.Default) ∧
    ((m.value_of "profile" = some "default" ∨ m.value_of "profile" = some "d") →
      opts.profile = ProfileType.Default) ∧
    ((m.value_of "profile" = some "fast" ∨ m.value_of "profile" = some "f") →
      opts.profile = ProfileType.Fast) ∧
    ((m.value_of "profile" = some "stealth" ∨ m.value_of "profile" = some "s") →
      opts.profile = ProfileType.Stealth) ∧
    ((m.value_of "profile" = some "chaos" ∨ m.value_of "profile" = some "c") →
      opts.profile = ProfileType.Chaos) ∧
    (∀ t, m.value_of "profile" = some t →
      t ≠ "default" → t ≠ "d" → t ≠ "fast" → t ≠ "f" →
      t ≠ "stealth" → t ≠ "s" → t ≠ "chaos" → t ≠ "c" → False) := by
  obtain ⟨hp, -, -, -, -, -, -, -, -, -, -, -, -, -, -⟩ := new_ok_inv h
  refine ⟨?_, ?_, ?_, ?_, ?_, ?_⟩
  · intro h0
    unfold resolveProfile at hp
    simp only [h0] at hp
    injection hp with hq
    exact hq.symm
  · rintro (h0 | h0) <;>
    · unfold resolveProfile at hp
      simp only [h0] at hp
      rw [if_pos (by tauto)] at hp
      injection hp with hq
      exact hq.symm
  · rintro (h0 | h0) <;>
    · unfold resolveProfile at hp
      simp only [h0] at hp
      rw [if_neg (by decide), if_pos (by tauto)] at hp
      injection hp with hq
      exact hq.symm
  · rintro (h0 | h0) <;>
    · unfold resolveProfile at hp
      simp only [h0] at hp
      rw [if_neg (by decide), if_neg (by decide), if_pos (by tauto)] at hp
      injection hp with hq
      exact hq.symm
  · rintro (h0 | h0) <;>
    · unfold resolveProfile at hp
      simp only [h0] at hp
      rw [if_neg (by decide), if_neg (by decide), if_neg (by decide),
        if_pos (by tauto)] at hp
      injection hp with hq
      exact hq.symm
  · intro t h0 n1 n2 n3 n4 n5 n6 n7 n8
    unfold resolveProfile at hp
    simp only [h0] at hp
    rw [if_neg (by tauto), if_neg (by tauto), if_neg (by tauto),
      if_neg (by tauto)] at hp
    exact Except.noConfusion hp

/-- C6 witness: the token d resolves to the Default profile. -/
theorem claim6_witness :
    ScanOptions.new [] ⟨[("profile", "d")], []⟩ = Except.ok optsDefault ∧
    optsDefault.profile = ProfileType.Default := by
  have h : ScanOptions.new [] ⟨[("profile", "d")], []⟩ = Except.ok optsDefault := rfl
  exact ⟨h, (claim6_profile_tokens h).2.1 (Or.inr rfl)⟩

/-- A stored value under a different head key is looked up in the tail. -/
theorem value_of_cons_ne {k v key : String} {vs : List (String × String)}
    {fl : List String} (hk : (k == key) = false) :
    ArgMatches.value_of ⟨(k, v) :: vs, fl⟩ key =
    ArgMatches.value_of ⟨vs, fl⟩ key := by
  simp [ArgMatches.value_of, List.find?_cons, hk]

/-- The head entry is found under its own key. -/
theorem value_of_cons_self {k v : String} {vs : List (String × String)}
    {fl : List String} :
    ArgMatches.value_of ⟨(k, v) :: vs, fl⟩ k = some v := by
  simp [ArgMatches.value_of, List.find?_cons]

/-- Flag presence does not depend on the value stored at the head. -/
theorem is_present_head_swap (k v w key : String)
    (vs : List (String × String)) (fl : List String) :
    ArgMatches.is_present ⟨(k, v) :: vs, fl⟩ key =
    ArgMatches.is_present ⟨(k, w) :: vs, fl⟩ key := by
  by_cases hk : (k == key) = true
  · have hk2 : k = key := eq_of_beq hk
    subst hk2
    simp [ArgMatches.is_present, value_of_cons_self]
  · have hkf : (k == key) = false := by simpa using hk
    simp [ArgMatches.is_present, value_of_cons_ne hkf]

/-- The profile resolver reads only the profile value. -/
theorem resolveProfile_congr {m m2 : ArgMatches}
    (h : m.value_of "profile" = m2.value_of "profile") :
    resolveProfile m = resolveProfile m2 := by
  unfold resolveProfile; rw [h]

/-- The timeout resolver reads only the timeout value. -/
theorem resolveTimeout_congr {m m2 : ArgMatches}
    (h : m.value_of "timeout" = m2.value_of "timeout")
    (profile : ProfileType) :
    resolveTimeout m profile = resolveTimeout m2 profile := by
  unfold resolveTimeout; rw [h]

/-- The source IPv4 resolver reads only the source ip value. -/
theorem resolveSourceIpv4_congr {m m2 : ArgMatches}
    (h : m.value_of "source_ip" = m2.value_of "source_ip") :
    resolveSourceIpv4 m = resolveSourceIpv4 m2 := by
  unfold resolveSourceIpv4; rw [h]

/-- The destination MAC resolver reads only its own value. -/
theorem resolveDestinationMac_congr {m m2 : ArgMatches}
    (h : m.value_of "destination_mac" = m2.value_of "destination_mac") :
    resolveDestinationMac m = resolveDestinationMac m2 := by
  unfold resolveDestinationMac; rw [h]

/-- The source MAC resolver reads only its own value. -/
theorem resolveSourceMac_congr {m m2 : ArgMatches}
    (h : m.value_of "source_mac" = m2.value_of "source_mac") :
    resolveSourceMac m = resolveSourceMac m2 := by
  unfold resolveSourceMac; rw [h]

/-- The VLAN resolver reads only the vlan value. -/
theorem resolveVlan_congr {m m2 : ArgMatches}
    (h : m.value_of "vlan" = m2.value_of "vlan") :
    resolveVlan m = resolveVlan m2 := by
  unfold resolveVlan; rw [h]

/-- The retry resolver reads only the retry value. -/
theorem resolveRetry_congr {m m2 : ArgMatches}
    (h : m.value_of "retry_count" = m2.value_of "retry_count")
    (profile : ProfileType) :
    resolveRetry m profile = resolveRetry m2 profile := by
  unfold resolveRetry; rw [h]

/-- The interval resolver reads only the interval value. -/
theorem resolveInterval_congr {m m2 : ArgMatches}
    (h : m.value_of "interval" = m2.value_of "interval")
    (profile : ProfileType) :
    resolveInterval m profile = resolveInterval m2 profile := by
  unfold resolveInterval; rw [h]

/-- The OUI file resolution reads only the oui-file value. -/
theorem resolveOuiFile_congr {m m2 : ArgMatches}
    (h : m.value_of "oui-file" = m2.value_of "oui-file") :
    resolveOuiFile m = resolveOuiFile m2 := by
  unfold resolveOuiFile; rw [h]

/-- The hardware type resolver reads only its own value. -/
theorem resolveHwType_congr {m m2 : ArgMatches}
    (h : m.value_of "hw-type" = m2.value_of "hw-type") :
    resolveHwType m = resolveHwType m2 := by
  unfold resolveHwType; rw [h]

/-- The hardware address length resolver reads only its own value. -/
theorem resolveHwAddr_congr {m m2 : ArgMatches}
    (h : m.value_of "hw-addr" = m2.value_of "hw-addr") :
    resolveHwAddr m = resolveHwAddr m2 := by
  unfold resolveHwAddr; rw [h]

/-- The protocol type resolver reads only its own value. -/
theorem resolveProtoType_congr {m m2 : ArgMatches}
    (h : m.value_of "proto-type" = m2.value_of "proto-type") :
    resolveProtoType m = resolveProtoType m2 := by
  unfold resolveProtoType; rw [h]

/-- The protocol address length resolver reads only its own value. -/
theorem resolveProtoAddr_congr {m m2 : ArgMatches}
    (h : m.value_of "proto-addr" = m2.value_of "proto-addr") :
    resolveProtoAddr m = resolveProtoAddr m2 := by
  unfold resolveProtoAddr; rw [h]

/-- The ARP operation resolver reads only its own value. -/
theorem resolveArpOperation_congr {m m2 : ArgMatches}
    (h : m.value_of "arp-op" = m2.value_of "arp-op") :
    resolveArpOperation m = resolveArpOperation m2 := by
  unfold resolveArpOperation; rw [h]

/-- The network resolver reads only the file and network values. -/
theorem compute_networks_congr {m m2 : ArgMatches}
    (hf : m.value_of "file" = m2.value_of "file")
    (hn : m.value_of "network" = m2.value_of "network")
    (fsys : List (String × String)) :
    compute_networks fsys m = compute_networks fsys m2 := by
  unfold compute_networks; rw [hf, hn]

/-- C7: output resolution maps json to Json, yaml to Yaml, and both
plain and text to Plain, with the two tokens yielding identical
resolved configurations; an absent token defaults to Plain; any other
token aborts, never defaulting silently. -/
theorem claim7_output_tokens :
    (∀ (fsys : List (String × String)) (m : ArgMatches) (opts : ScanOptions),
      ScanOptions.new fsys m = Except.ok opts →
      (m.value_of "output" = none → opts.output = OutputFormat.Plain) ∧
      (m.value_of "output" = some "json" → opts.output = OutputFormat.Json) ∧
      (m.value_of "output" = some "yaml" → opts.output = OutputFormat.Yaml) ∧
      ((m.value_of "output" = some "plain" ∨ m.value_of "output" = some "text") →
        opts.output = OutputFormat.Plain) ∧
      (∀ t, m.value_of "output" = some t → t ≠ "json" → t ≠ "yaml" →
        t ≠ "plain" → t ≠ "text" → False)) ∧
    (∀ (fsys : List (String × String)) (vs : List (String × String))
      (fl : List String),
      ScanOptions.new fsys ⟨("output", "plain") :: vs, fl⟩ =
      ScanOptions.new fsys ⟨("output", "text") :: vs, fl⟩) := by
  constructor
  · intro fsys m opts h
    obtain ⟨-, -, -, -, -, -, -, -, hout, -, -, -, -, -, -⟩ := new_ok_inv h
    refine ⟨?_, ?_, ?_, ?_, ?_⟩
    · intro h0
      unfold resolveOutput at hout
      simp only [h0] at hout
      injection hout with hq
      exact hq.symm
    · intro h0
      unfold resolveOutput at hout
      simp [h0] at hout
      simp_all
    · intro h0
      unfold resolveOutput at hout
      simp [h0] at hout
      simp_all
    · rintro (h0 | h0) <;>
      · unfold resolveOutput at hout
        simp [h0] at hout
        simp_all
    · intro t h0 n1 n2 n3 n4
      unfold resolveOutput at hout
      simp [h0, n1, n2, n3, n4] at hout
  · intro fsys vs fl
    have hvo : ∀ key : String, (("output" : String) == key) = false →
        ArgMatches.value_of ⟨("output", "plain") :: vs, fl⟩ key =
        ArgMatches.value_of ⟨("output", "text") :: vs, fl⟩ key := by
      intro key hk
      rw [value_of_cons_ne hk, value_of_cons_ne hk]
    have hpres : ∀ key : String,
        ArgMatches.is_present ⟨("output", "plain") :: vs, fl⟩ key =
        ArgMatches.is_present ⟨("output", "text") :: vs, fl⟩ key :=
      fun key => is_present_head_swap "output" "plain" "text" key vs fl
    have h1 := resolveProfile_congr (hvo "profile" (by decide))
    have h2 := compute_networks_congr (hvo "file" (by decide))
      (hvo "network" (by decide)) fsys
    have h3 := resolveTimeout_congr (hvo "timeout" (by decide))
    have h4 := resolveSourceIpv4_congr (hvo "source_ip" (by decide))
    have h5 := resolveDestinationMac_congr (hvo "destination_mac" (by decide))
    have h6 := resolveSourceMac_congr (hvo "source_mac" (by decide))
    have h7 := resolveVlan_congr (hvo "vlan" (by decide))
    have h8 := resolveRetry_congr (hvo "retry_count" (by decide))
    have h9 := resolveInterval_congr (hvo "interval" (by decide))
    have h10 := resolveOuiFile_congr (hvo "oui-file" (by decide))
    have h11 := resolveHwType_congr (hvo "hw-type" (by decide))
    have h12 := resolveHwAddr_congr (hvo "hw-addr" (by decide))
    have h13 := resolveProtoType_congr (hvo "proto-type" (by decide))
    have h14 := resolveProtoAddr_congr (hvo "proto-addr" (by decide))
    have h15 := resolveArpOperation_congr (hvo "arp-op" (by decide))
    have h16 := hvo "interface" (by decide)
    have h17 := hpres "numeric"
    have h18 := hpres "random"
    have hout : resolveOutput ⟨("output", "plain") :: vs, fl⟩ =
        resolveOutput ⟨("output", "text") :: vs, fl⟩ := by
      have ha : resolveOutput ⟨("output", "plain") :: vs, fl⟩ =
          Except.ok OutputFormat.Plain := by
        unfold resolveOutput
        simp [value_of_cons_self]
      have hb : resolveOutput ⟨("output", "text") :: vs, fl⟩ =
          Except.ok OutputFormat.Plain := by
        unfold resolveOutput
        simp [value_of_cons_self]
      rw [ha, hb]
    unfold ScanOptions.new
    rw [h1, h2, h16, h17, h18, hout, h10]
    simp only [h3, h4, h5, h6, h7, h8, h9, h11, h12, h13, h14, h15]

/-- C7 witness: the json token resolves the output to Json. -/
theorem claim7_witness :
    ScanOptions.new [] ⟨[("output", "json")], []⟩ = Except.ok optsJson ∧
    optsJson.output = OutputFormat.Json := by
  have h : ScanOptions.new [] ⟨[("output", "json")], []⟩ = Except.ok optsJson := rfl
  exact ⟨h, (claim7_output_tokens.1 [] _ _ h).2.1 rfl⟩

/-- One malformed entry anywhere in the list aborts range parsing. -/
theorem parseRanges_error_of_mem {ls : List String} {l : String}
    (hl : l ∈ ls) {e : String}
    (he : IpNetwork.from_str l = Except.error e) :
    ∃ e2, parseRanges ls = Except.error e2 := by
  induction ls with
  | nil => cases hl
  | cons a rest ih =>
    rcases List.mem_cons.mp hl with h | h
    · subst h
      exact ⟨"Expected valid IPv4 network range (" ++ e ++ ")",
        by simp [parseRanges, he]⟩
    · cases hfa : IpNetwork.from_str a with
      | error e3 =>
        exact ⟨"Expected valid IPv4 network range (" ++ e3 ++ ")",
          by simp [parseRanges, hfa]⟩
      | ok n =>
        obtain ⟨e2, hpe⟩ := ih h
        exact ⟨e2, by simp [parseRanges, hfa, hpe, Except.map]⟩

/-- A long flag that maps to its own argument name keeps its entries
through clap translation. -/
theorem resolveValued_mem {lv vals : List (String × String)}
    (h : resolveValued lv = Except.ok vals) {k v : String}
    (hself : longToName k = some k) (hmem : (k, v) ∈ lv) :
    (k, v) ∈ vals := by
  induction lv generalizing vals with
  | nil => simp at hmem
  | cons a rest ih =>
    obtain ⟨long, w⟩ := a
    unfold resolveValued at h
    cases hl : longToName long with
    | none =>
      rw [hl] at h
      exact Except.noConfusion h
    | some nm =>
      rw [hl] at h
      cases hr : resolveValued rest with
      | error e =>
        rw [hr] at h
        simp [Except.map] at h
      | ok r =>
        rw [hr] at h
        simp [Except.map] at h
        subst h
        rcases List.mem_cons.mp hmem with heq | hmm
        · obtain ⟨hk, hv⟩ := Prod.mk.injEq .. |>.mp heq
          subst hk
          subst hv
          rw [hself] at hl
          injection hl with hnm
          subst hnm
          exact List.mem_cons_self _ _
        · exact List.mem_cons_of_mem _ (ih hr hmm)

/-- A stored entry makes the lookup of its key succeed. -/
theorem value_of_isSome_of_mem {vals : List (String × String)}
    {fl : List String} {k v : String} (h : (k, v) ∈ vals) :
    (ArgMatches.value_of ⟨vals, fl⟩ k).isSome = true := by
  induction vals with
  | nil => simp at h
  | cons a rest ih =>
    cases hpa : ((a.1 : String) == k) with
    | true =>
      simp [ArgMatches.value_of, List.find?_cons, hpa]
    | false =>
      rcases List.mem_cons.mp h with heq | hmm
      · subst heq
        simp at hpa
      · have := ih hmm
        simpa [ArgMatches.value_of, List.find?_cons, hpa] using this

/-- C8: network range resolution is all or nothing: an unreadable file
is fatal; one malformed line of the file, or one malformed comma
separated inline entry, aborts with no networks returned even when
other entries are valid; with neither source the result is absent. -/
theorem claim8_networks_all_or_nothing (fsys : List (String × String))
    (m : ArgMatches) :
    (∀ p, m.value_of "file" = some p → m.value_of "network" = none →
      read_to_string fsys p = none →
      compute_networks fsys m = Except.error ("Could not open file " ++ p)) ∧
    (∀ p content, m.value_of "file" = some p → m.value_of "network" = none →
      read_to_string fsys p = some content →
      (∃ l ∈ rustLines content, ∃ e, IpNetwork.from_str l = Except.error e) →
      ∃ e2, compute_networks fsys m = Except.error e2) ∧
    (∀ raw, m.value_of "file" = none → m.value_of "network" = some raw →
      (∃ l ∈ rustSplit ',' raw, ∃ e, IpNetwork.from_str l = Except.error e) →
      ∃ e2, compute_networks fsys m = Except.error e2) ∧
    (m.value_of "file" = none → m.value_of "network" = none →
      compute_networks fsys m = Except.ok none) := by
  refine ⟨?_, ?_, ?_, ?_⟩
  · intro p h0 h1 h2
    simp [compute_networks, h0, h1, h2]
  · intro p content h0 h1 h2 hbad
    obtain ⟨l, hlmem, e, he⟩ := hbad
    obtain ⟨e2, hpe⟩ := parseRanges_error_of_mem hlmem he
    exact ⟨e2, by simp [compute_networks, h0, h1, h2, hpe, Except.map]⟩
  · intro raw h0 h1 hbad
    obtain ⟨l, hlmem, e, he⟩ := hbad
    obtain ⟨e2, hpe⟩ := parseRanges_error_of_mem hlmem he
    exact ⟨e2, by simp [compute_networks, h0, h1, hpe, Except.map]⟩
  · intro h0 h1
    simp [compute_networks, h0, h1]

/-- C8 witness: a readable file whose second line is malformed aborts
even though the first line is a valid network. -/
theorem claim8_witness :
    ∃ e2, compute_networks [("ranges.txt", "192.168.1.0/24\nbadline")]
      ⟨[("file", "ranges.txt")], []⟩ = Except.error e2 := by
  exact (claim8_networks_all_or_nothing
      [("ranges.txt", "192.168.1.0/24\nbadline")]
      ⟨[("file", "ranges.txt")], []⟩).2.1 "ranges.txt"
    "192.168.1.0/24\nbadline" rfl rfl rfl
    ⟨"badline", by decide, "invalid address", rfl⟩

/-- C9: the file and network sources are mutually exclusive: an
invocation supplying both long flags is rejected by argument matching,
before any range parsing, and no configuration is produced from it. -/
theorem claim9_sources_conflict {fsys : List (String × String)}
    {inp : CliInput}
    (hf : ∃ v, ("file", v) ∈ inp.valued)
    (hn : ∃ w, ("network", w) ∈ inp.valued) :
    (∃ e, get_matches inp = Except.error e) ∧
    (∀ opts, resolveCli fsys inp ≠ Except.ok opts) := by
  obtain ⟨v, hv⟩ := hf
  obtain ⟨w, hw⟩ := hn
  have herr : ∃ e, get_matches inp = Except.error e := by
    unfold get_matches
    cases hrv : resolveValued inp.valued with
    | error e => exact ⟨e, by simp [hrv, Bind.bind, Except.bind]⟩
    | ok vals =>
      cases hrg : resolveGiven inp.given with
      | error e => exact ⟨e, by simp [hrv, hrg, Bind.bind, Except.bind]⟩
      | ok fl =>
        have hmf : ("file", v) ∈ vals := resolveValued_mem hrv rfl hv
        have hmn : ("network", w) ∈ vals := resolveValued_mem hrv rfl hw
        have hf2 : (ArgMatches.value_of ⟨vals, fl⟩ "file").isSome = true :=
          value_of_isSome_of_mem hmf
        have hn2 : (ArgMatches.value_of ⟨vals, fl⟩ "network").isSome = true :=
          value_of_isSome_of_mem hmn
        refine ⟨"the argument cannot be used with one or more of the other specified arguments", ?_⟩
        simp [hrv, hrg, Bind.bind, Except.bind, cliConflicts, hf2, hn2]
  obtain ⟨e, he⟩ := herr
  refine ⟨⟨e, he⟩, ?_⟩
  intro opts hok
  unfold resolveCli at hok
  rw [he] at hok
  simp [Except.bind] at hok

/-- C9 witness: supplying both the file and the network flags is
rejected and yields no configuration. -/
theorem claim9_witness :
    (∃ e, get_matches ⟨[("file", "ranges.txt"), ("network", "10.0.0.0/8")], []⟩ =
      Except.error e) ∧
    (∀ opts, resolveCli [] ⟨[("file", "ranges.txt"), ("network", "10.0.0.0/8")], []⟩ ≠
      Except.ok opts) :=
  claim9_sources_conflict ⟨"ranges.txt", by simp⟩ ⟨"10.0.0.0/8", by simp⟩

/-- C10: a blank line anywhere in a network range file is submitted to
the CIDR parser like any other line and aborts resolution fatally
rather than being skipped; likewise empty inline text splits into one
empty entry and is fatal rather than treated as absent. -/
theorem claim10_blank_line_fatal (fsys : List (String × String))
    (m : ArgMatches) :
    (∀ p content, m.value_of "file" = some p → m.value_of "network" = none →
      read_to_string fsys p = some content → "" ∈ rustLines content →
      ∃ e, compute_networks fsys m = Except.error e) ∧
    (m.value_of "file" = none → m.value_of "network" = some "" →
      ∃ e, compute_networks fsys m = Except.error e) := by
  have hempty : IpNetwork.from_str "" = Except.error "invalid address" := rfl
  constructor
  · intro p content h0 h1 h2 hmem
    obtain ⟨e2, hpe⟩ := parseRanges_error_of_mem hmem hempty
    exact ⟨e2, by simp [compute_networks, h0, h1, h2, hpe, Except.map]⟩
  · intro h0 h1
    have hmem : "" ∈ rustSplit ',' "" := by decide
    obtain ⟨e2, hpe⟩ := parseRanges_error_of_mem hmem hempty
    exact ⟨e2, by simp [compute_networks, h0, h1, hpe, Except.map]⟩

/-- C10 witness: a blank line between two valid networks in a range
file aborts resolution. -/
theorem claim10_witness :
    ∃ e, compute_networks [("r.txt", "192.168.1.0/24\n\n10.0.0.0/8")]
      ⟨[("file", "r.txt")], []⟩ = Except.error e :=
  (claim10_blank_line_fatal _ _).1 "r.txt" "192.168.1.0/24\n\n10.0.0.0/8"
    rfl rfl rfl (by decide)
